import Mathlib

/-!
Verification of the FDT (flattened device tree) decoder: header validation,
tag tokenizer, and the serde-style decoding hooks, shallowly embedded from
`src/de.rs` and `src/error.rs`.  Machine integers are modelled as `Nat`,
with explicit `% 2^w` at the points where the source's wrapping arithmetic
matters.  Rust panics (index out of bounds, arithmetic underflow in debug
builds, `panic!`, `todo!`, `unreachable!`) are modelled by explicit `abort`
constructors in the result types.
-/

set_option autoImplicit false

namespace Fdt

/-- `DEVICE_TREE_MAGIC` from src/de.rs. -/
def DEVICE_TREE_MAGIC : Nat := 0xD00DFEED

/-- `SUPPORTED_VERSION` from src/de.rs. -/
def SUPPORTED_VERSION : Nat := 17

/-- `HEADER_LEN = size_of::<Header>()`: ten 4-byte fields. -/
def HEADER_LEN : Nat := 40

def FDT_BEGIN_NODE : Nat := 0x1
def FDT_END_NODE : Nat := 0x2
def FDT_PROP : Nat := 0x3
def FDT_NOP : Nat := 0x4
def FDT_END : Nat := 0x9

/-- The fixed 40-byte header of src/de.rs, fields in declaration order.
Each field holds the big-endian-decoded (`u32::from_be`) value, as a `Nat`
below `2^32`. -/
structure Header where
  magic : Nat
  total_size : Nat
  off_dt_struct : Nat
  off_dt_strings : Nat
  off_mem_rsvmap : Nat
  version : Nat
  last_comp_version : Nat
  boot_cpuid_phys : Nat
  size_dt_strings : Nat
  size_dt_struct : Nat
  deriving Repr, DecidableEq

/-- `ErrorType` from src/error.rs.  The payload of `Utf8` (a
`core::str::Utf8Error`) is omitted: it only records decoder-internal
positions and no claim depends on it. -/
inductive ErrorType where
  | invalidMagic (wrong_magic : Nat)
  | incompatibleVersion (last_comp_version library_supported_version : Nat)
  | headerTooShort (header_length at_least_length : Nat)
  | structureIndex (current_index bound_index : Nat)
      (structure_or_string overflow_or_underflow : Bool)
  | stringEofUnexpected
  | sliceEofUnexpected (expected_length remaining_length : Nat)
  | tableStringOffset (given_offset bound_offset : Nat)
  | tagEofUnexpected (current_index bound_index : Nat)
  | invalidTagId (wrong_id : Nat)
  | expectStructBegin
  | expectStructEnd
  | noRemainingTags
  | invalidSerdeTypeLength (expected_length : Nat)
  | utf8
  deriving Repr, DecidableEq

/-- `Error::Typed` from src/error.rs: an `ErrorType` plus the byte index
carried with it.  (`Error::Custom` is never constructed by the core and is
not modelled.) -/
structure Error where
  error_type : ErrorType
  file_index : Nat
  deriving Repr, DecidableEq

/-- Wrapping 64-bit subtraction, modelling release-mode `usize` subtraction
of two machine addresses. -/
def wrappingSub64 (a b : Nat) : Nat :=
  (a + (2 ^ 64 - b % 2 ^ 64)) % 2 ^ 64

/-- The header-validation prefix of `from_raw` (src/de.rs lines 10-70),
checks in source order with the payloads the source passes to the
`Error` constructors.

The source computes each error's `file_index` as
`(&header.FIELD as *const _ as usize) - (&header as *const _ as usize)`.
Since `header` is a local of type `&Header`, `&header` is the address of
that stack local, not of the header itself, so the subtraction is
(header base address + field offset) - (stack slot address).  We keep both
addresses as parameters `base` (the mapped header) and `stack` (the local)
and reproduce the wrapping subtraction.

The sums `off + size` are `u32` additions; the `% 2^32` models their
release-mode wrapping (a debug build would instead panic on overflow; no
claim exercises that corner). -/
def checkHeader (base stack : Nat) (h : Header) : Except Error Unit :=
  let fi : Nat → Nat := fun fieldOff => wrappingSub64 (base + fieldOff) stack
  if h.magic ≠ DEVICE_TREE_MAGIC then
    .error ⟨.invalidMagic h.magic, fi 0⟩
  else if h.last_comp_version > SUPPORTED_VERSION then
    .error ⟨.incompatibleVersion h.last_comp_version SUPPORTED_VERSION, fi 24⟩
  else if h.total_size < HEADER_LEN then
    .error ⟨.headerTooShort h.total_size HEADER_LEN, fi 4⟩
  else if h.off_dt_struct < HEADER_LEN then
    .error ⟨.structureIndex h.off_dt_struct HEADER_LEN true false, fi 8⟩
  else if (h.off_dt_struct + h.size_dt_struct) % 2 ^ 32 > h.total_size then
    .error ⟨.structureIndex ((h.off_dt_struct + h.size_dt_struct) % 2 ^ 32)
      HEADER_LEN true true, fi 36⟩
  else if h.off_dt_strings < HEADER_LEN then
    .error ⟨.structureIndex h.off_dt_strings HEADER_LEN false false, fi 12⟩
  else if (h.off_dt_struct + h.size_dt_strings) % 2 ^ 32 > h.total_size then
    .error ⟨.structureIndex h.off_dt_strings HEADER_LEN false true, fi 32⟩
  else
    .ok ()

/-- `align_up_u32` from src/de.rs line 139. -/
def align_up_u32 (val : Nat) : Nat :=
  val + (4 - val % 4) % 4

/-- A header passing every check of `checkHeader` but violating the
string-table bounds invariant `off_dt_strings + size_dt_strings ≤ total_size`
(fields: magic, total_size, off_dt_struct, off_dt_strings, off_mem_rsvmap,
version, last_comp_version, boot_cpuid_phys, size_dt_strings,
size_dt_struct). -/
def stringsOverflowHeader : Header :=
  ⟨0xD00DFEED, 100, 40, 90, 0, 17, 17, 0, 20, 0⟩

/-- `u32::from_be_bytes` over a list of bytes (big-endian accumulation). -/
def be32 (l : List Nat) : Nat :=
  l.foldl (fun acc b => acc * 256 + b) 0

/-- The `Tags` tokenizer state from src/de.rs line 131: the structure
slice, the string-table slice, the cursor into the structure slice, and
the structure slice's offset from the start of the trailing data.  (The
field `structure` is renamed `structure_`, `structure` being a Lean
keyword.) -/
structure Tags where
  structure_ : List Nat
  string_table : List Nat
  cur : Nat
  offset_from_file_begin : Nat
  deriving Repr, DecidableEq

/-- `Tags::file_index`. -/
def Tags.file_index (s : Tags) : Nat :=
  s.cur + s.offset_from_file_begin

/-- `Tags::read_cur_u32`: read 4 big-endian bytes at the cursor and advance
it by 4.  `none` models the Rust index-out-of-bounds panic when fewer than
4 bytes remain. -/
def read_cur_u32 (s : Tags) : Option (Nat × Tags) :=
  if s.cur + 4 ≤ s.structure_.length then
    some (be32 ((s.structure_.drop s.cur).take 4), { s with cur := s.cur + 4 })
  else
    none

/-- `Tags::read_string0_align`: scan forward from the cursor for a NUL
byte; on success return the bytes before it and set the cursor to
`align_up_u32 (end + 1)`; if the slice ends first, fail with
`StringEofUnexpected` at the position the scan stopped (the source leaves
`cur` at the slice length when the scan ran, hence the `max`). -/
def read_string0_align (s : Tags) : Except Error (List Nat × Tags) :=
  match (s.structure_.drop s.cur).findIdx? (fun b => b == 0) with
  | some k =>
      .ok ((s.structure_.drop s.cur).take k,
        { s with cur := align_up_u32 (s.cur + k + 1) })
  | none =>
      .error ⟨.stringEofUnexpected,
        max s.cur s.structure_.length + s.offset_from_file_begin⟩

/-- `Tags::read_slice_align`: take `len` bytes at the cursor, then align
the cursor up; fail with `SliceEofUnexpected` (requested and remaining
lengths) if the structure slice is exhausted first. -/
def read_slice_align (len : Nat) (s : Tags) : Except Error (List Nat × Tags) :=
  if s.cur + len > s.structure_.length then
    .error ⟨.sliceEofUnexpected len (s.structure_.length - s.cur), s.file_index⟩
  else
    .ok ((s.structure_.drop s.cur).take len,
      { s with cur := align_up_u32 (s.cur + len) })

/-- `Tags::read_table_string`: resolve a name by scanning the string table
from `pos` for a NUL; fail with `TableStringOffset` if `pos` is out of
bounds (bound = table length) or no NUL follows (bound = the scan's end,
which is again the table length).  The cursor is not touched. -/
def read_table_string (pos : Nat) (s : Tags) : Except Error (List Nat) :=
  if pos ≥ s.string_table.length then
    .error ⟨.tableStringOffset pos s.string_table.length, s.file_index⟩
  else
    match (s.string_table.drop pos).findIdx? (fun b => b == 0) with
    | some k => .ok ((s.string_table.drop pos).take k)
    | none =>
        .error ⟨.tableStringOffset pos s.string_table.length, s.file_index⟩

/-- The `Tag` token type from src/de.rs line 264: `Begin(name)`,
`Prop(value, name)`, `End`. -/
inductive Tag where
  | Begin (name : List Nat)
  | Prop (val : List Nat) (name : List Nat)
  | End
  deriving Repr, DecidableEq

/-- Outcome of one `Tags::next` call: a yielded token with its file index
and the successor state, a yielded error, end of stream (`FDT_END`), or a
Rust panic (out-of-bounds read or arithmetic underflow). -/
inductive NextResult where
  | yield (t : Tag) (fileIndex : Nat) (s : Tags)
  | fail (e : Error)
  | eof (s : Tags)
  | abort
  deriving Repr, DecidableEq

/-- The `loop` body of `Tags::next` (src/de.rs lines 223-254).  The only
repetition is the `FDT_NOP` arm, which after the 4-byte tag read advances
the cursor by another 4 bytes (`self.cur += 4`) and loops; `fuel` bounds
that repetition so the definition stays computable by reduction.  Each
iteration requires `cur + 4 ≤ len` to read the tag and then moves the
cursor 8 bytes forward, so `len + 1` iterations can never be exhausted;
every use below supplies at least that much fuel. -/
def tagsLoop : Nat → Tags → NextResult
  | 0, _ => .abort
  | fuel + 1, s =>
    match read_cur_u32 s with
    | none => .abort
    | some (tagId, s1) =>
      if tagId = FDT_BEGIN_NODE then
        match read_string0_align s1 with
        | .ok (name, s2) => .yield (.Begin name) s2.file_index s2
        | .error e => .fail e
      else if tagId = FDT_PROP then
        match read_cur_u32 s1 with
        | none => .abort
        | some (val_size, s2) =>
          match read_cur_u32 s2 with
          | none => .abort
          | some (name_offset, s3) =>
            match read_slice_align val_size s3 with
            | .error e => .fail e
            | .ok (val, s4) =>
              match read_table_string name_offset s4 with
              | .error e => .fail e
              | .ok prop_name => .yield (.Prop val prop_name) s4.file_index s4
      else if tagId = FDT_END_NODE then
        .yield .End s1.file_index s1
      else if tagId = FDT_NOP then
        tagsLoop fuel { s1 with cur := s1.cur + 4 }
      else if tagId = FDT_END then
        .eof s1
      else
        .fail ⟨.invalidTagId tagId, s1.file_index⟩

/-- `Tags::next` (src/de.rs lines 215-260).  The source guards the read
with `self.cur > self.structure.len() - size_of::<u32>()`: when the slice
itself is shorter than 4 bytes that `usize` subtraction underflows, which
panics in a debug build and in release wraps so that the guard passes and
the subsequent indexing panics — both are modelled by `abort`. -/
def tagsNext (s : Tags) : NextResult :=
  if s.structure_.length < 4 then
    .abort
  else if s.cur > s.structure_.length - 4 then
    .fail ⟨.tagEofUnexpected s.cur s.structure_.length, s.file_index⟩
  else
    tagsLoop (s.structure_.length + 1) s

/-- How a tokenization run ended. -/
inductive Terminal where
  | eofOk
  | failed (e : Error)
  | aborted
  | fuelOut
  deriving Repr, DecidableEq

/-- Drive `tagsNext` repeatedly, collecting the `(Tag, file_index)` pairs
it yields, until `FDT_END`, an error, a panic, or fuel runs out. -/
def tokenize : Nat → Tags → List (Tag × Nat) × Terminal
  | 0, _ => ([], .fuelOut)
  | fuel + 1, s =>
    match tagsNext s with
    | .eof _ => ([], .eofOk)
    | .fail e => ([], .failed e)
    | .abort => ([], .aborted)
    | .yield t i s' =>
        let r := tokenize fuel s'
        ((t, i) :: r.1, r.2)

/-- Validity of a byte sequence as UTF-8, the property `core::str::from_utf8`
checks (Rust standard library, outside this repository): ASCII, the 2-, 3-
and 4-byte sequence shapes, with overlong encodings, surrogates and code
points above 0x10FFFF rejected via the restricted ranges of the first
continuation byte. -/
def utf8Cont (b : Nat) : Bool :=
  0x80 ≤ b && b ≤ 0xBF

def utf8Valid : List Nat → Bool
  | [] => true
  | b :: rest =>
    if b ≤ 0x7F then
      utf8Valid rest
    else if 0xC2 ≤ b && b ≤ 0xDF then
      match rest with
      | c1 :: r => utf8Cont c1 && utf8Valid r
      | [] => false
    else if b == 0xE0 then
      match rest with
      | c1 :: c2 :: r => (0xA0 ≤ c1 && c1 ≤ 0xBF) && utf8Cont c2 && utf8Valid r
      | _ => false
    else if (0xE1 ≤ b && b ≤ 0xEC) || b == 0xEE || b == 0xEF then
      match rest with
      | c1 :: c2 :: r => utf8Cont c1 && utf8Cont c2 && utf8Valid r
      | _ => false
    else if b == 0xED then
      match rest with
      | c1 :: c2 :: r => (0x80 ≤ c1 && c1 ≤ 0x9F) && utf8Cont c2 && utf8Valid r
      | _ => false
    else if b == 0xF0 then
      match rest with
      | c1 :: c2 :: c3 :: r =>
          (0x90 ≤ c1 && c1 ≤ 0xBF) && utf8Cont c2 && utf8Cont c3 && utf8Valid r
      | _ => false
    else if 0xF1 ≤ b && b ≤ 0xF3 then
      match rest with
      | c1 :: c2 :: c3 :: r =>
          utf8Cont c1 && utf8Cont c2 && utf8Cont c3 && utf8Valid r
      | _ => false
    else if b == 0xF4 then
      match rest with
      | c1 :: c2 :: c3 :: r =>
          (0x80 ≤ c1 && c1 ≤ 0x8F) && utf8Cont c2 && utf8Cont c3 && utf8Valid r
      | _ => false
    else
      false

/-- One element of the token stream as the deserializer sees it:
`Tags::next` yields `Result<(Tag, usize)>` items.  The `Deserializer`
wraps the iterator in `Peekable`, whose observable behaviour is fully
determined by the sequence of items the iterator will yield, so the
deserializer state is embedded as the list of pending items:
`peek_tag`/`peek_tag_index` look at the head without removing it,
`next_tag`/`eat_tag` remove it. -/
abbrev TagRes := Except Error (Tag × Nat)

/-- Outcome of one deserializer-hook call: a value plus the remaining
stream, an `Error` plus the stream as the `&mut Deserializer` leaves it,
or a Rust abort (`panic!`, `todo!`, `unreachable!`). -/
inductive DRes (α : Type) where
  | ok (a : α) (rest : List TagRes)
  | err (e : Error) (rest : List TagRes)
  | abort

/-- `deserialize_bool` (src/de.rs lines 325-340): peeks; a `Prop` with a
zero-length value is consumed and decodes to `true`; a `Prop` with a
non-empty value, any other token, and an exhausted stream all hit
`panic!()`.  A peeked error is propagated without consuming it. -/
def deserialize_bool : List TagRes → DRes Bool
  | [] => .abort
  | .error e :: rest => .err e (.error e :: rest)
  | .ok (Tag.Prop val _, _) :: rest =>
      if val.length = 0 then .ok true rest else .abort
  | .ok _ :: _ => .abort

/-- `deserialize_u32` (src/de.rs lines 390-410): peeks; a `Prop` whose
value is not exactly 4 bytes yields `InvalidSerdeTypeLength` at the
token's file index, before the token is consumed; otherwise the value is
decoded big-endian and the token consumed.  Non-`Prop` tokens hit
`todo!()`. -/
def deserialize_u32 : List TagRes → DRes Nat
  | [] => .abort
  | .error e :: rest => .err e (.error e :: rest)
  | .ok (Tag.Prop val nm, i) :: rest =>
      if val.length ≠ 4 then
        .err ⟨.invalidSerdeTypeLength 4, i⟩ (.ok (Tag.Prop val nm, i) :: rest)
      else
        .ok (be32 val) rest
  | .ok _ :: _ => .abort

/-- `deserialize_str` (src/de.rs lines 444-458): peeks; the `Prop` value
must be valid UTF-8 (else a `Utf8` error at the token's file index, before
the token is consumed); on success the borrowed bytes are returned and the
token consumed.  Non-`Prop` tokens hit `todo!()`. -/
def deserialize_str : List TagRes → DRes (List Nat)
  | [] => .abort
  | .error e :: rest => .err e (.error e :: rest)
  | .ok (Tag.Prop val nm, i) :: rest =>
      if utf8Valid val then
        .ok val rest
      else
        .err ⟨.utf8, i⟩ (.ok (Tag.Prop val nm, i) :: rest)
  | .ok _ :: _ => .abort

/-- `deserialize_bytes` (src/de.rs lines 468-480): peeks; a `Prop`'s value
bytes are returned verbatim and the token consumed; anything else hits
`todo!()`. -/
def deserialize_bytes : List TagRes → DRes (List Nat)
  | [] => .abort
  | .error e :: rest => .err e (.error e :: rest)
  | .ok (Tag.Prop val _, _) :: rest => .ok val rest
  | .ok _ :: _ => .abort

/-- The `while let` loop of `deserialize_ignored_any` (src/de.rs lines
612-625): consume tokens, incrementing the depth on `Begin`, decrementing
on `End`, stopping after the `End` seen at depth 0.  `next_tag` returning
`Ok(None)` (stream exhausted) exits the loop normally. -/
def skipNode : List TagRes → Nat → DRes Unit
  | [], _ => .ok () []
  | .error e :: rest, _ => .err e rest
  | .ok (Tag.Begin _, _) :: rest, depth => skipNode rest (depth + 1)
  | .ok (Tag.End, _) :: rest, depth =>
      if depth = 0 then .ok () rest else skipNode rest (depth - 1)
  | .ok (Tag.Prop _ _, _) :: rest, depth => skipNode rest depth

/-- `deserialize_ignored_any` (src/de.rs lines 604-632): peek; at `Begin`,
consume it and run the depth-tracking skip loop; at `Prop`, consume just
that token; at `End`, `unreachable!()`; an empty stream skips straight to
`visit_unit`. -/
def deserialize_ignored_any : List TagRes → DRes Unit
  | [] => .ok () []
  | .error e :: rest => .err e (.error e :: rest)
  | .ok (Tag.Begin _, _) :: rest => skipNode rest 0
  | .ok (Tag.End, _) :: _ => .abort
  | .ok (Tag.Prop _ _, _) :: rest => .ok () rest

/-- Well-formed ("balanced") forests of annotated tokens: a concatenation
of complete items, each item either a single `Prop` or a `Begin … End`
span enclosing a balanced forest. -/
inductive BalancedF : List (Tag × Nat) → Prop where
  | nil : BalancedF []
  | prop (v n : List Nat) (i : Nat) (ts : List (Tag × Nat)) :
      BalancedF ts → BalancedF ((Tag.Prop v n, i) :: ts)
  | node (nm : List Nat) (i j : Nat) (inner ts : List (Tag × Nat)) :
      BalancedF inner → BalancedF ts →
      BalancedF ((Tag.Begin nm, i) :: (inner ++ (Tag.End, j) :: ts))

/-- A decoded value for a generic ("decode anything") consumer type: the
shapes the implemented hooks can produce — boolean, 32-bit unsigned,
raw bytes, and maps of name/value entries. -/
inductive DtValue where
  | bool (b : Bool)
  | u32 (n : Nat)
  | bytes (bs : List Nat)
  | map (entries : List (List Nat × DtValue))

/-- Apply a function to the value of a successful hook outcome. -/
def DRes.mapVal {α β : Type} (f : α → β) : DRes α → DRes β
  | .ok a s => .ok (f a) s
  | .err e s => .err e s
  | .abort => .abort

mutual

/-- `deserialize_any` (src/de.rs lines 305-323): peek and dispatch on the
token.  The source's match arm is `Some(Tag::Prop(_, value_slice))`, which
binds the second field of `Prop` — the property's NAME, not its value — as
`value_slice`; the length dispatch below therefore inspects `nm`, exactly
as the source does.  A `Begin` dispatches to the map hook, `End` hits
`unreachable!()`, an exhausted stream hits `todo!()`.  `fuel` bounds the
recursion depth through nested nodes; every theorem below supplies more
fuel than the stream's length, which no run can exhaust. -/
def deserialize_any : Nat → List TagRes → DRes DtValue
  | 0, _ => .abort
  | fuel + 1, s =>
    match s with
    | [] => .abort
    | .error e :: rest => .err e (.error e :: rest)
    | .ok (Tag.Prop v nm, i) :: rest =>
        if nm.length = 0 then
          DRes.mapVal DtValue.bool
            (deserialize_bool (.ok (Tag.Prop v nm, i) :: rest))
        else if nm.length = 4 then
          DRes.mapVal DtValue.u32
            (deserialize_u32 (.ok (Tag.Prop v nm, i) :: rest))
        else
          DRes.mapVal DtValue.bytes
            (deserialize_bytes (.ok (Tag.Prop v nm, i) :: rest))
    | .ok (Tag.Begin nm, i) :: rest =>
        DRes.mapVal DtValue.map
          (deserialize_map fuel (.ok (Tag.Begin nm, i) :: rest))
    | .ok (Tag.End, _) :: _ => .abort

/-- `deserialize_map` (src/de.rs lines 550-564): `next_tag` must yield
`Begin` (else `ExpectStructBegin`, with the token consumed); then the
visitor drives the map-access bridge; then `next_tag` must yield exactly
`End` (else `ExpectStructEnd`). -/
def deserialize_map : Nat → List TagRes → DRes (List (List Nat × DtValue))
  | 0, _ => .abort
  | fuel + 1, s =>
    match s with
    | [] => .err ⟨.expectStructBegin, 0⟩ []
    | .error e :: rest => .err e rest
    | .ok (Tag.Begin _, _) :: rest =>
        match visit_map fuel rest with
        | .ok entries s' =>
            match s' with
            | .ok (Tag.End, _) :: rest' => .ok entries rest'
            | [] => .err ⟨.expectStructEnd, 0⟩ []
            | .error e :: rest' => .err e rest'
            | .ok _ :: rest' => .err ⟨.expectStructEnd, 0⟩ rest'
        | .err e s' => .err e s'
        | .abort => .abort
    | .ok _ :: rest => .err ⟨.expectStructBegin, 0⟩ rest

/-- Modelled from the spec: the generic visitor loop driving the
Map-Access Bridge (spec §4.3a) — the consumer-side `visit_map`, which is
serde framework/consumer code, not in src/.  It repeatedly calls the
bridge's `MapVisitor::next_key_seed` (src/de.rs lines 648-662: peek; a
`Prop` or `Begin` yields its name as the key without consuming; `End`
signals end-of-map; an empty stream is `NoRemainingTags`) and then
`MapVisitor::next_value_seed` (src/de.rs lines 664-675: delegate to the
deserializer, here `deserialize_any` for a generic value), collecting the
key/value pairs in order. -/
def visit_map : Nat → List TagRes → DRes (List (List Nat × DtValue))
  | 0, _ => .abort
  | fuel + 1, s =>
    match s with
    | [] => .err ⟨.noRemainingTags, 0⟩ []
    | .error e :: rest => .err e (.error e :: rest)
    | .ok (Tag.End, i) :: rest => .ok [] (.ok (Tag.End, i) :: rest)
    | .ok (Tag.Prop v nm, i) :: rest =>
        match deserialize_any fuel (.ok (Tag.Prop v nm, i) :: rest) with
        | .ok value s' =>
            (match visit_map fuel s' with
             | .ok es s'' => .ok ((nm, value) :: es) s''
             | .err e s'' => .err e s''
             | .abort => .abort)
        | .err e s' => .err e s'
        | .abort => .abort
    | .ok (Tag.Begin nm, i) :: rest =>
        match deserialize_any fuel (.ok (Tag.Begin nm, i) :: rest) with
        | .ok value s' =>
            (match visit_map fuel s' with
             | .ok es s'' => .ok ((nm, value) :: es) s''
             | .err e s'' => .err e s''
             | .abort => .abort)
        | .err e s' => .err e s'
        | .abort => .abort

end

/-- Read the ten big-endian header fields from the first 40 bytes, the
`u32::from_be`-decoded view `from_raw` works with. -/
def parseHeader (bytes : List Nat) : Header :=
  ⟨be32 (bytes.take 4), be32 ((bytes.drop 4).take 4),
   be32 ((bytes.drop 8).take 4), be32 ((bytes.drop 12).take 4),
   be32 ((bytes.drop 16).take 4), be32 ((bytes.drop 20).take 4),
   be32 ((bytes.drop 24).take 4), be32 ((bytes.drop 28).take 4),
   be32 ((bytes.drop 32).take 4), be32 ((bytes.drop 36).take 4)⟩

/-- The item sequence `Peekable<Tags>` will deliver: the yielded tokens,
with a trailing tokenizer error as the final pending item.  (A tokenizer
abort is a process panic and produces no item; no theorem below runs a
stream whose production aborted.) -/
def tagStream (fuel : Nat) (t : Tags) : List TagRes :=
  match tokenize fuel t with
  | (ts, Terminal.failed e) => ts.map Except.ok ++ [Except.error e]
  | (ts, _) => ts.map Except.ok

/-- `from_raw` (src/de.rs lines 5-80) for a consumer decoding a map/struct
(`deserialize_struct` forwards to `deserialize_map`): parse the header
from the first 40 bytes, validate it, build the `DeviceTree` view over
`total_size - HEADER_LEN` trailing bytes, cut the structure and
string-table sub-slices (`DeviceTree::tags`, src/de.rs lines 116-127 —
out-of-range slicing panics, modelled by `abort`), tokenize, and run the
decode. -/
def from_raw (base stack fuel : Nat) (bytes : List Nat) :
    DRes (List (List Nat × DtValue)) :=
  let h := parseHeader bytes
  match checkHeader base stack h with
  | .error e => .err e []
  | .ok _ =>
      let data := (bytes.drop 40).take (h.total_size - 40)
      let saddr := h.off_dt_struct - 40
      let staddr := h.off_dt_strings - 40
      if saddr + h.size_dt_struct ≤ data.length
          ∧ staddr + h.size_dt_strings ≤ data.length then
        deserialize_map fuel
          (tagStream fuel
            ⟨(data.drop saddr).take h.size_dt_struct,
             (data.drop staddr).take h.size_dt_strings, 0, saddr⟩)
      else
        .abort

/-- A minimal valid blob: a 40-byte header (magic, total_size 56,
off_dt_struct 40, off_dt_strings 56, off_mem_rsvmap 0, version 17,
last_comp_version 17, boot_cpuid 0, size_dt_strings 0, size_dt_struct 16)
followed by the records `BEGIN_NODE` + empty name (padded), `END_NODE`,
and the terminating `END`. -/
def minimalBlob : List Nat :=
  [0xD0, 0x0D, 0xFE, 0xED, 0, 0, 0, 56, 0, 0, 0, 40, 0, 0, 0, 56,
   0, 0, 0, 0, 0, 0, 0, 17, 0, 0, 0, 17, 0, 0, 0, 0,
   0, 0, 0, 0, 0, 0, 0, 16]
  ++ [0, 0, 0, 1, 0, 0, 0, 0, 0, 0, 0, 2, 0, 0, 0, 9]

end Fdt

namespace Fdt

/-- C2: a `NOP` record is not transparent.  The structure block
`END_NODE END_NODE END(9)` tokenizes to two `End` tokens, but prepending a
single `NOP` word yields only one `End`: after reading the 4-byte `NOP`
tag the source advances the cursor 4 further bytes (src/de.rs line 250),
swallowing the first `END_NODE`.  Worse, a `NOP` directly followed by the
terminating `END` word makes the cursor overrun the slice and the next
read aborts instead of ending the stream. -/
theorem nop_consumes_extra_word :
    tokenize 10 ⟨[0, 0, 0, 2, 0, 0, 0, 2, 0, 0, 0, 9], [], 0, 0⟩
      = ([(Tag.End, 4), (Tag.End, 8)], .eofOk)
    ∧ tokenize 10 ⟨[0, 0, 0, 4, 0, 0, 0, 2, 0, 0, 0, 2, 0, 0, 0, 9], [], 0, 0⟩
      = ([(Tag.End, 12)], .eofOk)
    ∧ tokenize 10 ⟨[0, 0, 0, 4, 0, 0, 0, 9], [], 0, 0⟩ = ([], .aborted) :=
  ⟨rfl, rfl, rfl⟩

/-- C4: on a structure slice shorter than 4 bytes the tokenizer does not
yield `TagEofUnexpected` — the bounds guard `cur > len - 4` underflows and
the step panics (modelled by `abort`); with at least 4 bytes the guard
works as claimed. -/
theorem tokenizer_short_slice_aborts :
    tagsNext ⟨[], [], 0, 0⟩ = .abort
    ∧ tagsNext ⟨[0, 0, 0], [], 7, 0⟩ = .abort
    ∧ tagsNext ⟨[0, 0, 0, 2], [], 1, 0⟩
      = .fail ⟨.tagEofUnexpected 1 4, 1⟩ :=
  ⟨rfl, rfl, rfl⟩

/-- C3: the claim says validation fails whenever
`off_dt_strings + size_dt_strings > total_size`.  The source instead
compares `off_dt_struct + size_dt_strings` against `total_size`
(src/de.rs line 62), so this header, whose string table ends 10 bytes past
`total_size`, passes validation for every pair of addresses. -/
theorem string_bounds_check_uses_struct_offset :
    (∀ base stack : Nat,
      checkHeader base stack stringsOverflowHeader = Except.ok ())
    ∧ stringsOverflowHeader.off_dt_strings + stringsOverflowHeader.size_dt_strings
        > stringsOverflowHeader.total_size :=
  ⟨fun _ _ => rfl, by decide⟩

/-- C6: the byte offset carried by a header-validation error is not the
offending field's position in the header.  With the header mapped at
address 1000 and the local reference stored at stack address 500, a wrong
magic is reported at offset 500, not 0: the source subtracts the stack
address of the local `header : &Header` binding (`&header`), not the
header's base address. -/
theorem header_error_offset_not_field_position :
    checkHeader 1000 500 ⟨0, 0, 0, 0, 0, 0, 0, 0, 0, 0⟩
      = Except.error ⟨.invalidMagic 0, 500⟩ ∧ (500 : Nat) ≠ 0 :=
  ⟨rfl, by decide⟩

/-- C9: `align_up_u32` satisfies `align_up(x) = x + ((4 - x mod 4) mod 4)`,
always yields a multiple of 4, is idempotent, is the identity on multiples
of 4, and advances a cursor ending 1, 2 or 3 bytes past a 4-byte boundary
by 3, 2 or 1 extra bytes respectively. -/
theorem align_up_spec :
    (∀ x : Nat, align_up_u32 x = x + (4 - x % 4) % 4)
    ∧ (∀ x : Nat, align_up_u32 x % 4 = 0)
    ∧ (∀ x : Nat, align_up_u32 (align_up_u32 x) = align_up_u32 x)
    ∧ (∀ x : Nat, x % 4 = 0 → align_up_u32 x = x)
    ∧ (∀ x : Nat, x % 4 = 1 → align_up_u32 x = x + 3)
    ∧ (∀ x : Nat, x % 4 = 2 → align_up_u32 x = x + 2)
    ∧ (∀ x : Nat, x % 4 = 3 → align_up_u32 x = x + 1) := by
  refine ⟨fun x => rfl, fun x => ?_, fun x => ?_, fun x h => ?_,
    fun x h => ?_, fun x h => ?_, fun x h => ?_⟩ <;>
    unfold align_up_u32 <;> omega

/-- Concrete instances of `align_up_spec`: 8 is already aligned, and 9, 10,
11 advance by 3, 2, 1 bytes. -/
theorem align_up_spec_witness :
    align_up_u32 8 = 8 ∧ align_up_u32 9 = 9 + 3
    ∧ align_up_u32 10 = 10 + 2 ∧ align_up_u32 11 = 11 + 1 :=
  ⟨align_up_spec.2.2.2.1 8 (by decide), align_up_spec.2.2.2.2.1 9 (by decide),
   align_up_spec.2.2.2.2.2.1 10 (by decide),
   align_up_spec.2.2.2.2.2.2 11 (by decide)⟩

/-- C5: the boolean hook, applied to a `Prop` carrying the 1-byte value
`[0x01]`, aborts the process (`panic!()`), it does not return a typed
decode error. -/
theorem bool_hook_nonempty_panics :
    deserialize_bool [Except.ok (Tag.Prop [1] [97], 0)] = DRes.abort :=
  rfl

/-- C10: scalar-hook failures are atomic.  A `Prop` value of the wrong
length makes `deserialize_u32` return `InvalidSerdeTypeLength` with the
token stream exactly as it was, and a `Prop` value that is not valid UTF-8
makes `deserialize_str` return the `Utf8` error with the stream exactly as
it was: both errors are raised before `eat_tag`. -/
theorem scalar_error_leaves_stream_unchanged :
    (∀ (val nm : List Nat) (i : Nat) (rest : List TagRes),
      val.length ≠ 4 →
      deserialize_u32 (Except.ok (Tag.Prop val nm, i) :: rest)
        = DRes.err ⟨.invalidSerdeTypeLength 4, i⟩
            (Except.ok (Tag.Prop val nm, i) :: rest))
    ∧ (∀ (val nm : List Nat) (i : Nat) (rest : List TagRes),
      utf8Valid val = false →
      deserialize_str (Except.ok (Tag.Prop val nm, i) :: rest)
        = DRes.err ⟨.utf8, i⟩ (Except.ok (Tag.Prop val nm, i) :: rest)) := by
  constructor
  · intro val nm i rest h
    simp [deserialize_u32, h]
  · intro val nm i rest h
    simp [deserialize_str, h]

/-- Concrete instance of `scalar_error_leaves_stream_unchanged`: the byte
`0xC0` is neither 4 bytes long nor valid UTF-8, and both hooks leave the
one-token stream untouched. -/
theorem scalar_error_leaves_stream_unchanged_witness :
    deserialize_u32 [Except.ok (Tag.Prop [192] [], 5)]
      = DRes.err ⟨.invalidSerdeTypeLength 4, 5⟩ [Except.ok (Tag.Prop [192] [], 5)]
    ∧ deserialize_str [Except.ok (Tag.Prop [192] [], 5)]
      = DRes.err ⟨.utf8, 5⟩ [Except.ok (Tag.Prop [192] [], 5)] :=
  ⟨scalar_error_leaves_stream_unchanged.1 [192] [] 5 [] (by decide),
   scalar_error_leaves_stream_unchanged.2 [192] [] 5 [] (by decide)⟩

/-- Skipping a balanced forest from any depth leaves the skip loop exactly
where it would be without that forest. -/
theorem skipNode_balanced (l : List (Tag × Nat)) (h : BalancedF l) :
    ∀ (rest : List TagRes) (d : Nat),
      skipNode (l.map Except.ok ++ rest) d = skipNode rest d := by
  induction h with
  | nil => intro rest d; rfl
  | prop v n i ts _ ih => intro rest d; exact ih rest d
  | node nm i j inner ts _ _ ihinner ihts =>
    intro rest d
    have h1 : ((inner ++ (Tag.End, j) :: ts).map Except.ok ++ rest)
        = inner.map Except.ok
            ++ (Except.ok (Tag.End, j) :: (ts.map Except.ok ++ rest)) := by
      simp
    calc skipNode (((Tag.Begin nm, i) :: (inner ++ (Tag.End, j) :: ts)).map
            Except.ok ++ rest) d
        = skipNode ((inner ++ (Tag.End, j) :: ts).map Except.ok ++ rest)
            (d + 1) := rfl
      _ = skipNode (inner.map Except.ok
            ++ (Except.ok (Tag.End, j) :: (ts.map Except.ok ++ rest)))
            (d + 1) := by rw [h1]
      _ = skipNode (Except.ok (Tag.End, j) :: (ts.map Except.ok ++ rest))
            (d + 1) := ihinner _ _
      _ = skipNode (ts.map Except.ok ++ rest) d := by simp [skipNode]
      _ = skipNode rest d := ihts rest d

/-- C7: positioned at a `Begin` whose body is a balanced forest, the
ignore hook consumes exactly that subtree — tracking the nesting depth —
and leaves the stream at the first token after the matching `End`;
positioned at a `Prop` it consumes exactly that one token. -/
theorem ignored_any_consumes_subtree :
    (∀ (nm : List Nat) (i j : Nat) (inner : List (Tag × Nat))
        (rest : List TagRes),
      BalancedF inner →
      deserialize_ignored_any
        (Except.ok (Tag.Begin nm, i)
          :: (inner.map Except.ok ++ Except.ok (Tag.End, j) :: rest))
        = DRes.ok () rest)
    ∧ (∀ (v nm : List Nat) (i : Nat) (rest : List TagRes),
      deserialize_ignored_any (Except.ok (Tag.Prop v nm, i) :: rest)
        = DRes.ok () rest) := by
  constructor
  · intro nm i j inner rest h
    show skipNode (inner.map Except.ok ++ Except.ok (Tag.End, j) :: rest) 0
      = DRes.ok () rest
    rw [skipNode_balanced inner h]
    rfl
  · intro v nm i rest
    rfl

/-- Concrete instance of `ignored_any_consumes_subtree` at nesting depth 2:
the outer node contains one child which contains one grandchild, and the
hook stops exactly after the outer `End`, leaving the trailing token. -/
theorem ignored_any_consumes_subtree_witness :
    deserialize_ignored_any
      (Except.ok (Tag.Begin [], 0)
        :: ([(Tag.Begin [97], 1), (Tag.Begin [98], 2), (Tag.End, 3),
             (Tag.End, 4)].map Except.ok
          ++ Except.ok (Tag.End, 5) :: [Except.ok (Tag.End, 6)]))
      = DRes.ok () [Except.ok (Tag.End, 6)] :=
  ignored_any_consumes_subtree.1 [] 0 5
    [(Tag.Begin [97], 1), (Tag.Begin [98], 2), (Tag.End, 3), (Tag.End, 4)]
    [Except.ok (Tag.End, 6)]
    (BalancedF.node [97] 1 4 [(Tag.Begin [98], 2), (Tag.End, 3)] []
      (BalancedF.node [98] 2 3 [] [] BalancedF.nil BalancedF.nil)
      BalancedF.nil)

/-- C1: the "any" hook does not dispatch on the VALUE length — it
dispatches on the length of the property's name.  A `Prop` with a 4-byte
value but a 1-byte name (`"a"`) lands in the raw-bytes hook instead of the
32-bit-unsigned hook; a `Prop` with a zero-length value and that same name
also lands in the raw-bytes hook instead of the boolean hook; and a `Prop`
with a 2-byte value but an empty name is sent to the boolean hook, whose
length check then panics. -/
theorem any_dispatch_uses_name_length :
    deserialize_any 10 [Except.ok (Tag.Prop [0, 0, 0, 7] [97], 0)]
      = DRes.ok (DtValue.bytes [0, 0, 0, 7]) []
    ∧ deserialize_any 10 [Except.ok (Tag.Prop [] [97], 0)]
      = DRes.ok (DtValue.bytes []) []
    ∧ deserialize_any 10 [Except.ok (Tag.Prop [1, 2] [], 0)] = DRes.abort :=
  ⟨rfl, rfl, rfl⟩

/-- C8: the minimal valid blob — header, `Begin("")`, `End`, `END(9)` —
decodes into the empty map for every pair of machine addresses: the map
hook consumes the `Begin`, the bridge reports end-of-map immediately, the
`End` is consumed, and the whole decode returns `ok` with no entries and
an exhausted stream. -/
theorem minimal_blob_decodes_empty_map :
    ∀ base stack : Nat, from_raw base stack 100 minimalBlob = DRes.ok [] [] :=
  fun _ _ => rfl

end Fdt
